import Mathlib

/-!
Shallow embedding of the FaceAttend liveness / attendance core.

Sources embedded here:
- `backend/app/ai_models.py` : `evaluate_expected_pose` (pose step evaluation);
- `backend/app/liveness_detection.py` : `verify_liveness_movement` (movement scoring);
- `backend/app/routers/liveness.py` : the DB-backed session operations
  (`create_liveness_session`, `process_liveness_frames`, `get_liveness_session`);
- `backend/app/models.py` : the `attendance_log` unique constraint;
- `backend/app/routers/attendance.py` : `mark_attendance`;
- `backend/app/camera_processor.py` : `CameraProcessor.start`,
  `CameraManager.start_camera`, `CameraProcessor._mark_attendance`.

Python floats are embedded as rationals; external collaborators (face
detection, embedding extraction, cosine comparison, uuid generation, database
commit) are parameters of the embedded operations.
-/

namespace FaceAttend

/-! ## Pose evaluation (`ai_models.py`, `evaluate_expected_pose`, lines 417-439) -/

/-- Result triple of `evaluate_expected_pose`: `(ok, conf, detected)`. -/
structure PoseEval where
  ok : Bool
  confidence : ℚ
  detected : String
deriving Repr, DecidableEq

/-- Threshold `center_thresh = 0.15` from `evaluate_expected_pose`. -/
def center_thresh : ℚ := 15 / 100

/-- Threshold `side_thresh = 0.25` from `evaluate_expected_pose`. -/
def side_thresh : ℚ := 25 / 100

/-- The literal `1e-6` added to the center denominator in the source. -/
def eps6 : ℚ := 1 / 1000000

/-- Embedding of `evaluate_expected_pose(yaw_norm, expected)` from
`ai_models.py`.  The detected pose is `right` above `side_thresh`, `left`
below `-side_thresh`, else `center`; per-position `ok` and confidence follow
the source's formulas (note the `center_thresh + 1e-6` denominator). -/
def evaluate_expected_pose (yaw_norm : ℚ) (expected : String) : PoseEval :=
  let detected : String :=
    if yaw_norm > side_thresh then "right"
    else if yaw_norm < -side_thresh then "left"
    else "center"
  if expected = "center" then
    { ok := decide (|yaw_norm| ≤ center_thresh)
      confidence := max 0 (1 - |yaw_norm| / (center_thresh + eps6))
      detected := detected }
  else if expected = "left" then
    { ok := decide (yaw_norm < -side_thresh)
      confidence := min 1 (max 0 ((-yaw_norm - side_thresh) / (5 / 10)))
      detected := detected }
  else if expected = "right" then
    { ok := decide (yaw_norm > side_thresh)
      confidence := min 1 (max 0 ((yaw_norm - side_thresh) / (5 / 10)))
      detected := detected }
  else
    { ok := false, confidence := 0, detected := detected }

/-! ## Movement verification (`liveness_detection.py`,
`RealLivenessDetectionEngine.verify_liveness_movement`, lines 96-112).
The three pairwise similarities produced by `compare_faces` are the inputs. -/

/-- Result of `verify_liveness_movement` (the keys actually read downstream). -/
structure MovementResult where
  movement_verified : Bool
  confidence : ℚ
  person_similarity : ℚ
  movement_difference : ℚ
deriving Repr, DecidableEq

/-- Embedding of the scoring logic of `verify_liveness_movement` on the three
pairwise similarities.  `person_similarity = min(center_left, center_right)`,
`movement_difference = 1 - left_right`; when both thresholds pass, the score
is their average and verification additionally requires `score > 0.6`. -/
def verify_liveness_movement (center_left center_right left_right : ℚ) :
    MovementResult :=
  let person_similarity := min center_left center_right
  let movement_difference := 1 - left_right
  if person_similarity > 7 / 10 ∧ movement_difference > 1 / 10 then
    let movement_score := (person_similarity + movement_difference) / 2
    { movement_verified := decide (movement_score > 6 / 10)
      confidence := movement_score
      person_similarity := person_similarity
      movement_difference := movement_difference }
  else
    { movement_verified := false
      confidence := 0
      person_similarity := person_similarity
      movement_difference := movement_difference }

example : (evaluate_expected_pose 0 "center").ok = true := by
  simp [evaluate_expected_pose, center_thresh, side_thresh, eps6] <;> norm_num

example : (evaluate_expected_pose 0 "center").confidence = 1 := by
  simp [evaluate_expected_pose, center_thresh, side_thresh, eps6] <;> norm_num

example : (evaluate_expected_pose (3 / 10) "right").ok = true := by
  simp [evaluate_expected_pose, center_thresh, side_thresh, eps6] <;> norm_num

example : (evaluate_expected_pose (1 / 20) "left").ok = false := by
  simp [evaluate_expected_pose, center_thresh, side_thresh, eps6] <;> norm_num

example :
    (verify_liveness_movement (95 / 100) (92 / 100) (5 / 10)).movement_verified
      = true := by
  simp [verify_liveness_movement] <;> norm_num

example :
    (verify_liveness_movement (71 / 100) (71 / 100) (89 / 100)).movement_verified
      = false := by
  simp [verify_liveness_movement] <;> norm_num

/-! ## DB-backed liveness sessions (`routers/liveness.py`, `models.py`).

A row of `liveness_detection_sessions` with the fields the router reads and
writes.  Embeddings are JSON-encoded float lists in the database; they are
kept as `Option (List ℚ)` here.  Times are absolute seconds.  The router file
has an indentation fault around its student-embedding persistence block
(lines 226-302); that block touches only the `student_embeddings` table, not
the session row, so the session-state transition embedded below is the
unambiguous remainder of `process_liveness_frames`. -/

/-- One `liveness_detection_sessions` row (`models.py`, lines 67-103). -/
structure LSession where
  session_id : String
  student_id : Option Nat
  status : String
  expires_at : ℚ
  completed_at : Option ℚ
  center_frame_data : Option String
  left_frame_data : Option String
  right_frame_data : Option String
  center_embedding : Option (List ℚ)
  left_embedding : Option (List ℚ)
  right_embedding : Option (List ℚ)
  center_verified : Bool
  left_verified : Bool
  right_verified : Bool
  liveness_score : ℚ
  movement_verified : Bool
  final_embedding : Option (List ℚ)
  error_message : Option String
deriving Repr, DecidableEq

/-- Session created by `create_liveness_session` (`routers/liveness.py`,
lines 40-56): status `PENDING`, `expires_at = now + 10 minutes`, every other
column at its `models.py` default. -/
def newSession (sid : String) (student : Option Nat) (now : ℚ) : LSession :=
  { session_id := sid
    student_id := student
    status := "PENDING"
    expires_at := now + 600
    completed_at := none
    center_frame_data := none
    left_frame_data := none
    right_frame_data := none
    center_embedding := none
    left_embedding := none
    right_embedding := none
    center_verified := false
    left_verified := false
    right_verified := false
    liveness_score := 0
    movement_verified := false
    final_embedding := none
    error_message := none }

/-- Per-call input to `process_liveness_frames`: the requested position and
what the external collaborators produce for the submitted frame — whether the
base64 payload decodes, the detected face's yaw (none when no face is found
by the liveness system), and the extraction result of
`face_recognition_system.extract_face_embedding` (none when it fails). -/
structure FrameInput where
  position : String
  frame_data : String
  decodes : Bool
  yaw : Option ℚ
  embedding : Option (List ℚ)
deriving Repr, DecidableEq

/-- Outcome of one `process_liveness_frames` call: the HTTP error raised, or
the response fields `(is_live, confidence, detected_pose)`. -/
inductive SubmitResult where
  | notFound
  | expired
  | badImage
  | ok (is_live : Bool) (confidence : ℚ) (detected_pose : Option String)
deriving Repr, DecidableEq

/-- Frame-data and embedding storage of `process_liveness_frames`
(lines 146-172): the frame is stored for the requested position, and the
extracted embedding is stored only when extraction produced one. -/
def storeData (pos fd : String) (emb : Option (List ℚ)) (s : LSession) :
    LSession :=
  if pos = "center" then
    { s with center_frame_data := some fd
             center_embedding := match emb with
               | some e => some e
               | none => s.center_embedding }
  else if pos = "left" then
    { s with left_frame_data := some fd
             left_embedding := match emb with
               | some e => some e
               | none => s.left_embedding }
  else if pos = "right" then
    { s with right_frame_data := some fd
             right_embedding := match emb with
               | some e => some e
               | none => s.right_embedding }
  else s

/-- Verified-flag update of `process_liveness_frames` (lines 181-187): the
flag of the requested position is assigned `is_live` only when the detected
pose equals that position; otherwise no flag changes. -/
def setFlag (pos : String) (det : Option String) (isLive : Bool)
    (s : LSession) : LSession :=
  if pos = "center" ∧ det = some "center" then { s with center_verified := isLive }
  else if pos = "left" ∧ det = some "left" then { s with left_verified := isLive }
  else if pos = "right" ∧ det = some "right" then { s with right_verified := isLive }
  else s

/-- Finalization of `process_liveness_frames` (lines 189-311): when all three
flags are set, movement verification runs on the stored embeddings (with the
basic-verification fallback `movement_verified = True, score = 0.8` when one
is missing) and the session completes or fails; otherwise the session stays
`IN_PROGRESS` with the step confidence as score.  `cmp` is the external
`compare_faces` collaborator. -/
def finalize (cmp : List ℚ → List ℚ → ℚ) (now conf : ℚ) (s : LSession) :
    LSession :=
  if s.center_verified ∧ s.left_verified ∧ s.right_verified then
    let s1 :=
      match s.center_embedding, s.left_embedding, s.right_embedding with
      | some c, some l, some r =>
          let mv := verify_liveness_movement (cmp c l) (cmp c r) (cmp l r)
          { s with movement_verified := mv.movement_verified
                   liveness_score := mv.confidence }
      | _, _, _ =>
          { s with movement_verified := true, liveness_score := 8 / 10 }
    if s1.movement_verified then
      { s1 with final_embedding := s1.center_embedding
                status := "COMPLETED"
                completed_at := some now }
    else
      { s1 with status := "FAILED"
                error_message := some "Movement verification failed" }
  else
    { s with status := "IN_PROGRESS", liveness_score := conf }

/-- Embedding of `process_liveness_frames` (`routers/liveness.py`,
lines 78-336) acting on one session row.  Expiry is checked first and flips
the status; an undecodable image is rejected without touching the session;
otherwise the liveness result is computed from the detected yaw via
`evaluate_expected_pose`, data is stored, the flag possibly updated, and the
session finalized. -/
def processFrame (cmp : List ℚ → List ℚ → ℚ) (now : ℚ) (s : LSession)
    (inp : FrameInput) : SubmitResult × LSession :=
  if s.expires_at < now then
    (.expired, { s with status := "EXPIRED" })
  else if inp.decodes = false then
    (.badImage, s)
  else
    let det : Bool × ℚ × Option String :=
      match inp.yaw with
      | some y =>
          let p := evaluate_expected_pose y inp.position
          (p.ok, p.confidence, some p.detected)
      | none => (false, 0, none)
    let s2 := setFlag inp.position det.2.2 det.1
      (storeData inp.position inp.frame_data inp.embedding s)
    (.ok det.1 det.2.1 det.2.2, finalize cmp now det.2.1 s2)

/-- A sequence of `process_liveness_frames` calls on one session, each tagged
with its wall-clock time. -/
def runSession (cmp : List ℚ → List ℚ → ℚ) (s : LSession)
    (steps : List (ℚ × FrameInput)) : LSession :=
  steps.foldl (fun t p => (processFrame cmp p.1 t p.2).2) s

/-- Embedding of `get_liveness_session` (`routers/liveness.py`,
lines 643-685): a read-only snapshot of the stored row.  The handler performs
no expiry check, so the stored status is returned as-is. -/
structure SessionSnapshot where
  session_id : String
  status : String
  liveness_score : ℚ
  expires_at : ℚ
deriving Repr, DecidableEq

/-- The snapshot `get_liveness_session` returns. -/
def get_liveness_session (s : LSession) : SessionSnapshot :=
  { session_id := s.session_id
    status := s.status
    liveness_score := s.liveness_score
    expires_at := s.expires_at }

/-! ## Concrete collaborator instances and traces used in closed theorems -/

/-- Trivial comparison collaborator (never consulted on traces that store no
embeddings). -/
def cmp0 : List ℚ → List ℚ → ℚ := fun _ _ => 0

/-- Comparison collaborator realizing the spec's worked example:
`center/left = 0.95`, `center/right = 0.92`, `left/right = 0.5` on the tag
embeddings `[1]`, `[2]`, `[3]`. -/
def cmpGood : List ℚ → List ℚ → ℚ := fun a b =>
  if a = [1] ∧ b = [2] then 95 / 100
  else if a = [1] ∧ b = [3] then 92 / 100
  else if a = [2] ∧ b = [3] then 5 / 10
  else 0

/-- Three submissions with matching poses whose embedding extraction failed
every time (the extractor returned `None`). -/
def noEmbTrace : List (ℚ × FrameInput) :=
  [ (1, { position := "center", frame_data := "f1", decodes := true
          yaw := some 0, embedding := none })
  , (2, { position := "left", frame_data := "f2", decodes := true
          yaw := some (-(3 / 10)), embedding := none })
  , (3, { position := "right", frame_data := "f3", decodes := true
          yaw := some (3 / 10), embedding := none }) ]

/-- Three submissions with matching poses and successful embedding
extraction. -/
def goodTrace : List (ℚ × FrameInput) :=
  [ (1, { position := "center", frame_data := "f1", decodes := true
          yaw := some 0, embedding := some [1] })
  , (2, { position := "left", frame_data := "f2", decodes := true
          yaw := some (-(3 / 10)), embedding := some [2] })
  , (3, { position := "right", frame_data := "f3", decodes := true
          yaw := some (3 / 10), embedding := some [3] }) ]

example :
    (runSession cmp0 (newSession "s" none 0) noEmbTrace).status = "COMPLETED" := by
  simp [runSession, noEmbTrace, processFrame, newSession, storeData, setFlag,
    finalize, evaluate_expected_pose, center_thresh, side_thresh, eps6] <;> norm_num

example :
    (runSession cmp0 (newSession "s" none 0) noEmbTrace).final_embedding = none := by
  simp [runSession, noEmbTrace, processFrame, newSession, storeData, setFlag,
    finalize, evaluate_expected_pose, center_thresh, side_thresh, eps6] <;> norm_num

example :
    (runSession cmpGood (newSession "s" none 0) goodTrace).status = "COMPLETED" := by
  simp [runSession, goodTrace, processFrame, newSession, storeData, setFlag,
    finalize, evaluate_expected_pose, verify_liveness_movement, cmpGood,
    center_thresh, side_thresh, eps6] <;> norm_num

/-! ## Session store (`create_liveness_session` plus the `session_id` unique
column of `models.py`).  The uuid4 collaborator is modelled as the caller
supplying each call's token; the database refuses (rather than overwrites) an
insert whose `session_id` already exists. -/

/-- One `create_liveness_session` call: the drawn uuid token, the optional
student, and the wall-clock time. -/
structure CreateCall where
  sid : String
  student : Option Nat
  now : ℚ
deriving Repr, DecidableEq

/-- Database insert of a session row under the `unique=True` constraint on
`session_id` (`models.py`, line 71): `none` models the integrity error raised
on a duplicate token — an existing row is never overwritten. -/
def insertSession (store : List LSession) (s : LSession) :
    Option (List LSession) :=
  if store.any (fun t => t.session_id == s.session_id) then none
  else some (store ++ [s])

/-- A sequence of `create_liveness_session` calls against one database. -/
def runCreates : List LSession → List CreateCall → Option (List LSession)
  | store, [] => some store
  | store, c :: rest =>
      match insertSession store (newSession c.sid c.student c.now) with
      | none => none
      | some st => runCreates st rest

/-! ## Attendance records (`models.py` `AttendanceLog`,
`routers/attendance.py` `mark_attendance`,
`camera_processor.py` `CameraProcessor._mark_attendance`). -/

/-- One `attendance_log` row (`models.py`, lines 48-64). -/
structure ALog where
  log_id : Nat
  student_id : Nat
  detected_at : ℚ
  confidence : ℚ
  camera_source : Option String
deriving Repr, DecidableEq

/-- Calendar day of a timestamp (`func.date` / `date.today()` in the source):
days since the epoch. -/
def calDate (t : ℚ) : ℤ := ⌊t / 86400⌋

/-- Boolean pairwise check over a table. -/
def pairwiseOK (p : ALog → ALog → Bool) : List ALog → Bool
  | [] => true
  | a :: rest => rest.all (p a) && pairwiseOK p rest

/-- The storage-boundary constraint the schema actually declares
(`models.py`, line 59): `UniqueConstraint('student_id', 'detected_at')` — no
two rows share student and exact timestamp. -/
def unique_daily_attendance (tbl : List ALog) : Bool :=
  pairwiseOK (fun a b =>
    !(decide (a.student_id = b.student_id) &&
      decide (a.detected_at = b.detected_at))) tbl

/-- The per-calendar-day uniqueness the claim asserts: no two rows share
student and calendar date. -/
def at_most_one_per_day (tbl : List ALog) : Bool :=
  pairwiseOK (fun a b =>
    !(decide (a.student_id = b.student_id) &&
      decide (calDate a.detected_at = calDate b.detected_at))) tbl

/-- The duplicate-check query of `mark_attendance` and `_mark_attendance`:
an existing row of the student on the given calendar day. -/
def findToday (tbl : List ALog) (sid : Nat) (today : ℤ) : Option ALog :=
  tbl.find? (fun r =>
    decide (r.student_id = sid) && decide (calDate r.detected_at = today))

/-- Embedding of the `POST /attendance/mark` handler `mark_attendance`
(`routers/attendance.py`, lines 79-148): read-then-write per-day dedupe, no
confidence check of any kind.  Returns `(created, returned record, table)`. -/
def mark_attendance (tbl : List ALog) (sid : Nat) (conf : ℚ)
    (src : Option String) (now : ℚ) : Bool × ALog × List ALog :=
  match findToday tbl sid (calDate now) with
  | some r => (false, r, tbl)
  | none =>
      let r : ALog :=
        { log_id := tbl.length + 1, student_id := sid, detected_at := now
          confidence := conf, camera_source := src }
      (true, r, tbl ++ [r])

/-- Embedding of the per-student branch of
`CameraProcessor._mark_attendance` (`camera_processor.py`, lines 199-228):
the write is attempted only when `confidence > 0.7`, and skipped when a row
for the day exists.  (The source spells the queried model `Attendance`, an
unimported name; the attendance table it evidently addresses is modelled.) -/
def camera_mark_attendance (tbl : List ALog) (sid : Nat) (conf : ℚ)
    (src : Option String) (now : ℚ) : List ALog :=
  if conf > 7 / 10 then
    match findToday tbl sid (calDate now) with
    | some _ => tbl
    | none =>
        tbl ++ [{ log_id := tbl.length + 1, student_id := sid
                  detected_at := now, confidence := conf
                  camera_source := src }]
  else tbl

/-- Two racing `mark_attendance` calls for the same student: both
transactions read the same committed snapshot before either insert commits
(the read-then-write of the handler is not atomic), then both inserts are
applied in order.  Returns both `created` flags and the final table. -/
def concurrentMark (tbl : List ALog) (sid : Nat) (c1 c2 t1 t2 : ℚ) :
    (Bool × Bool) × List ALog :=
  let seen1 := (findToday tbl sid (calDate t1)).isSome
  let seen2 := (findToday tbl sid (calDate t2)).isSome
  let tbl1 :=
    if seen1 then tbl
    else tbl ++ [{ log_id := tbl.length + 1, student_id := sid
                   detected_at := t1, confidence := c1, camera_source := none }]
  let tbl2 :=
    if seen2 then tbl1
    else tbl1 ++ [{ log_id := tbl1.length + 1, student_id := sid
                    detected_at := t2, confidence := c2, camera_source := none }]
  ((!seen1, !seen2), tbl2)

/-! ## Camera pipeline (`camera_processor.py`). -/

/-- The `CameraProcessor` state the claims concern: the running flag and
callback set by `start`, plus a count of capture loops ever spawned (each
`threading.Thread(...).start()` call spawns one). -/
structure CameraProcessor where
  camera_url : String
  camera_location : String
  is_running : Bool
  callback : Option Nat
  loops_spawned : Nat
deriving Repr, DecidableEq

/-- A freshly constructed `CameraProcessor` (its `__init__`). -/
def CameraProcessor.mk0 (url loc : String) : CameraProcessor :=
  { camera_url := url, camera_location := loc, is_running := false
    callback := none, loops_spawned := 0 }

/-- Embedding of `CameraProcessor.start` (`camera_processor.py`,
lines 27-38): when already running it only logs a warning and returns;
otherwise it records the callback, sets the flag and spawns one loop. -/
def CameraProcessor.start (c : CameraProcessor) (cb : Option Nat) :
    CameraProcessor :=
  if c.is_running then c
  else { c with callback := cb, is_running := true
                loops_spawned := c.loops_spawned + 1 }

/-- The `CameraManager` registry of processors keyed by camera url. -/
structure CameraManager where
  cameras : List (String × CameraProcessor)
deriving Repr, DecidableEq

/-- Embedding of `CameraManager.start_camera` (`camera_processor.py`,
lines 245-254): a url already present is a warning-and-return no-op;
otherwise a new processor is registered and started. -/
def CameraManager.start_camera (m : CameraManager) (url loc : String)
    (cb : Option Nat) : CameraManager :=
  if m.cameras.any (fun p => p.1 == url) then m
  else { cameras := m.cameras ++ [(url, (CameraProcessor.mk0 url loc).start cb)] }

/-! ## Claim theorems -/

/-- C2, counterexample: pairwise similarities `0.71 / 0.71 / 0.89` give
`person_similarity = 0.71 > 0.7` and `movement_difference = 0.11 > 0.1`, yet
`verify_liveness_movement` leaves `movement_verified = false` — the code
additionally gates on `score > 0.6` — and returns the nonzero score `0.41`
instead of the claimed `0`. -/
theorem C2_counterexample :
    (min (71 / 100 : ℚ) (71 / 100) > 7 / 10 ∧ 1 - (89 / 100 : ℚ) > 1 / 10) ∧
    (verify_liveness_movement (71 / 100) (71 / 100) (89 / 100)).movement_verified
      = false ∧
    (verify_liveness_movement (71 / 100) (71 / 100) (89 / 100)).confidence
      = 41 / 100 := by
  refine ⟨by norm_num, ?_, ?_⟩ <;>
    simp [verify_liveness_movement] <;> norm_num

/-- C2, amended: movement verification returns `verified = true` iff
`person_similarity > 0.7` and `movement_difference > 0.1` and additionally
`(person_similarity + movement_difference) / 2 > 0.6`; the score is
`(person_similarity + movement_difference) / 2` whenever the two threshold
tests pass (verified or not) and `0` otherwise.  The spec's worked example
(similarities `0.95 / 0.92 / 0.5`) does yield `verified = true`. -/
theorem C2_amended : ∀ center_left center_right left_right : ℚ,
    ((verify_liveness_movement center_left center_right left_right).movement_verified
        = true ↔
      (min center_left center_right > 7 / 10 ∧ 1 - left_right > 1 / 10 ∧
        (min center_left center_right + (1 - left_right)) / 2 > 6 / 10)) ∧
    ((verify_liveness_movement center_left center_right left_right).confidence =
      if min center_left center_right > 7 / 10 ∧ 1 - left_right > 1 / 10 then
        (min center_left center_right + (1 - left_right)) / 2
      else 0) ∧
    (verify_liveness_movement (95 / 100) (92 / 100) (5 / 10)).movement_verified
      = true := by
  intro cl cr lr
  refine ⟨?_, ?_, ?_⟩
  · simp only [verify_liveness_movement]
    split_ifs with h
    · simp only [decide_eq_true_eq]
      exact ⟨fun h3 => ⟨h.1, h.2, h3⟩, fun h3 => h3.2.2⟩
    · simp only [Bool.false_eq_true, false_iff]
      tauto
  · simp only [verify_liveness_movement]
    split_ifs with h <;> simp
  · simp [verify_liveness_movement] <;> norm_num

/-- C6, counterexample: at `yaw_norm = 0.15` with requested position
`center`, the code's confidence is `1/150001` (the source divides by
`center_thresh + 1e-6`), while the claimed formula
`max(0, 1 - |yaw_norm|/0.15)` evaluates to `0`. -/
theorem C6_counterexample :
    (evaluate_expected_pose (3 / 20) "center").confidence = 1 / 150001 ∧
    max 0 (1 - |(3 / 20 : ℚ)| / center_thresh) = 0 ∧
    (1 / 150001 : ℚ) ≠ 0 := by
  refine ⟨?_, ?_, by norm_num⟩ <;>
    simp [evaluate_expected_pose, center_thresh, side_thresh, eps6] <;>
    norm_num [abs]

/-- C6, amended: the pose evaluator classifies `detected_pose` as `right` iff
`yaw_norm > 0.25`, `left` iff `yaw_norm < -0.25`, else `center`
(independently of the requested position); for `center`, ok iff
`|yaw_norm| ≤ 0.15` with confidence `max(0, 1 - |yaw_norm|/(0.15 + 1e-6))`
— the denominator carries the source's `1e-6` guard; for `left`/`right`, ok
iff the side threshold is crossed in the matching direction, with confidence
scaling linearly from 0 at the threshold to 1 at 0.5 beyond it, clamped to
`[0, 1]`.  The claim's particular cases hold: `yaw 0`/`center` gives
`ok = true, confidence = 1`; `yaw 0.30`/`right` gives `ok = true`;
`yaw 0.05`/`left` gives `ok = false`. -/
theorem C6_amended : ∀ yaw_norm : ℚ,
    ((evaluate_expected_pose yaw_norm "center").detected = "right" ↔
      yaw_norm > 25 / 100) ∧
    ((evaluate_expected_pose yaw_norm "center").detected = "left" ↔
      yaw_norm < -(25 / 100)) ∧
    ((evaluate_expected_pose yaw_norm "center").detected = "center" ↔
      (-(25 / 100) ≤ yaw_norm ∧ yaw_norm ≤ 25 / 100)) ∧
    ((evaluate_expected_pose yaw_norm "left").detected =
      (evaluate_expected_pose yaw_norm "center").detected) ∧
    ((evaluate_expected_pose yaw_norm "right").detected =
      (evaluate_expected_pose yaw_norm "center").detected) ∧
    ((evaluate_expected_pose yaw_norm "center").ok = true ↔
      |yaw_norm| ≤ 15 / 100) ∧
    ((evaluate_expected_pose yaw_norm "center").confidence =
      max 0 (1 - |yaw_norm| / (15 / 100 + 1 / 1000000))) ∧
    ((evaluate_expected_pose yaw_norm "left").ok = true ↔
      yaw_norm < -(25 / 100)) ∧
    ((evaluate_expected_pose yaw_norm "left").confidence =
      min 1 (max 0 ((-yaw_norm - 25 / 100) / (5 / 10)))) ∧
    ((evaluate_expected_pose yaw_norm "right").ok = true ↔
      yaw_norm > 25 / 100) ∧
    ((evaluate_expected_pose yaw_norm "right").confidence =
      min 1 (max 0 ((yaw_norm - 25 / 100) / (5 / 10)))) ∧
    (evaluate_expected_pose 0 "center"
      = { ok := true, confidence := 1, detected := "center" }) ∧
    ((evaluate_expected_pose (3 / 10) "right").ok = true) ∧
    ((evaluate_expected_pose (1 / 20) "left").ok = false) := by
  intro y
  have hdet : ∀ e : String, (evaluate_expected_pose y e).detected =
      (if y > side_thresh then "right"
       else if y < -side_thresh then "left" else "center") := by
    intro e
    simp only [evaluate_expected_pose]
    split_ifs <;> rfl
  refine ⟨?_, ?_, ?_, ?_, ?_, ?_, ?_, ?_, ?_, ?_, ?_, ?_, ?_, ?_⟩
  · rw [hdet]
    unfold side_thresh
    split_ifs with h1 h2 <;> simp_all <;> linarith
  · rw [hdet]
    unfold side_thresh
    split_ifs with h1 h2 <;> simp_all <;> linarith
  · rw [hdet]
    unfold side_thresh
    split_ifs with h1 h2 <;> simp_all <;> constructor <;> linarith
  · rw [hdet, hdet]
  · rw [hdet, hdet]
  · simp [evaluate_expected_pose, center_thresh]
  · simp [evaluate_expected_pose, center_thresh, eps6] <;> norm_num
  · simp [evaluate_expected_pose, side_thresh]
  · simp [evaluate_expected_pose, side_thresh]
  · simp [evaluate_expected_pose, side_thresh]
  · simp [evaluate_expected_pose, side_thresh]
  · simp [evaluate_expected_pose, center_thresh, side_thresh, eps6] <;> norm_num
  · simp [evaluate_expected_pose, center_thresh, side_thresh, eps6] <;> norm_num
  · simp [evaluate_expected_pose, center_thresh, side_thresh, eps6] <;> norm_num

/-- C10: calling `start` on an already-running `CameraProcessor` is a no-op
(state unchanged, no new loop spawned), `start_camera` on an already-known
url leaves the manager unchanged, and starting a non-running processor
spawns exactly one loop — each source owns one capture loop at a time. -/
theorem C10_theorem :
    (∀ (c : CameraProcessor) (cb : Option Nat),
      c.is_running = true → c.start cb = c) ∧
    (∀ (m : CameraManager) (url loc : String) (cb : Option Nat),
      m.cameras.any (fun p => p.1 == url) = true →
        m.start_camera url loc cb = m) ∧
    (∀ (c : CameraProcessor) (cb : Option Nat),
      c.is_running = false →
        (c.start cb).loops_spawned = c.loops_spawned + 1 ∧
        (c.start cb).is_running = true) := by
  refine ⟨?_, ?_, ?_⟩
  · intro c cb h
    simp [CameraProcessor.start, h]
  · intro m url loc cb h
    simp [CameraManager.start_camera, h]
  · intro c cb h
    simp [CameraProcessor.start, h]

/-- C10, witness: a concrete started processor and a manager already holding
its url; the second `start` and `start_camera` calls change nothing, and the
first `start` spawned exactly one loop. -/
theorem C10_witness :
    (((CameraProcessor.mk0 "cam0" "hall").start none).start (some 1)
        = (CameraProcessor.mk0 "cam0" "hall").start none) ∧
    ((CameraManager.mk
        [("cam0", (CameraProcessor.mk0 "cam0" "hall").start none)]).start_camera
          "cam0" "hall" (some 1)
        = CameraManager.mk
            [("cam0", (CameraProcessor.mk0 "cam0" "hall").start none)]) ∧
    (((CameraProcessor.mk0 "cam0" "hall").start none).loops_spawned
        = (CameraProcessor.mk0 "cam0" "hall").loops_spawned + 1 ∧
     ((CameraProcessor.mk0 "cam0" "hall").start none).is_running = true) :=
  ⟨C10_theorem.1 ((CameraProcessor.mk0 "cam0" "hall").start none) (some 1) rfl,
   C10_theorem.2.1
     (CameraManager.mk [("cam0", (CameraProcessor.mk0 "cam0" "hall").start none)])
     "cam0" "hall" (some 1) rfl,
   C10_theorem.2.2 (CameraProcessor.mk0 "cam0" "hall") none rfl⟩

/-- C9, counterexample: the `POST /attendance/mark` handler performs no
confidence check — a call with confidence `0.1`, far below the `0.7`
threshold, creates an attendance record (`created = true`). -/
theorem C9_counterexample :
    ((1 : ℚ) / 10 < 7 / 10) ∧
    (mark_attendance [] 1 (1 / 10) none 0).1 = true ∧
    (mark_attendance [] 1 (1 / 10) none 0).2.2 =
      [{ log_id := 1, student_id := 1, detected_at := 0,
         confidence := 1 / 10, camera_source := none }] := by
  refine ⟨by norm_num, rfl, rfl⟩

/-- C9, amended: only the camera-loop path short-circuits on low confidence —
`CameraProcessor._mark_attendance` attempts no write when
`confidence ≤ 0.7`; the HTTP `mark_attendance` endpoint performs no
confidence check and creates a record (with `created = true`) whenever the
student has none for the day, regardless of confidence. -/
theorem C9_amended :
    ∀ (tbl : List ALog) (sid : Nat) (conf : ℚ) (src : Option String) (now : ℚ),
      conf ≤ 7 / 10 →
      findToday tbl sid (calDate now) = none →
      (camera_mark_attendance tbl sid conf src now = tbl ∧
       mark_attendance tbl sid conf src now =
        (true,
         { log_id := tbl.length + 1, student_id := sid, detected_at := now
           confidence := conf, camera_source := src },
         tbl ++ [{ log_id := tbl.length + 1, student_id := sid
                   detected_at := now, confidence := conf
                   camera_source := src }])) := by
  intro tbl sid conf src now h hf
  have hnot : ¬(conf > 7 / 10) := not_lt.mpr h
  constructor
  · simp [camera_mark_attendance, hnot]
  · simp [mark_attendance, hf]

/-- C9, witness: on an empty table with confidence `0.5 ≤ 0.7`, the camera
path writes nothing while the HTTP endpoint creates the record. -/
theorem C9_witness :
    camera_mark_attendance [] 1 (1 / 2) none 0 = [] ∧
    mark_attendance [] 1 (1 / 2) none 0 =
      (true,
       { log_id := 1, student_id := 1, detected_at := 0
         confidence := 1 / 2, camera_source := none },
       [{ log_id := 1, student_id := 1, detected_at := 0
          confidence := 1 / 2, camera_source := none }]) :=
  C9_amended [] 1 (1 / 2) none 0 (by norm_num) rfl

/-- The table produced by the racing pair of `mark_attendance` calls of
`C8_bug`: two rows for student 7 on the same calendar day, 60 seconds
apart. -/
def raceTable : List ALog :=
  [ { log_id := 1, student_id := 7, detected_at := 100
      confidence := 9 / 10, camera_source := none }
  , { log_id := 2, student_id := 7, detected_at := 160
      confidence := 9 / 10, camera_source := none } ]

/-- C8: two concurrent `mark_attendance` calls for student 7 at timestamps
100 and 160 of the same day, both reading the empty table before either
insert commits, produce two records with `created = true` for both callers;
the schema's `unique_daily_attendance` constraint — declared on
`(student_id, detected_at)`, the exact timestamp — accepts the duplicate
pair, so per-calendar-day uniqueness is not enforced at the storage
boundary. -/
theorem C8_bug :
    concurrentMark [] 7 (9 / 10) (9 / 10) 100 160 = ((true, true), raceTable) ∧
    unique_daily_attendance raceTable = true ∧
    at_most_one_per_day raceTable = false ∧
    calDate 100 = calDate 160 := by
  refine ⟨rfl, rfl, ?_, ?_⟩
  · simp only [at_most_one_per_day, pairwiseOK, raceTable, List.all_cons,
      List.all_nil, Bool.and_true, decide_eq_true_eq]
    norm_num [calDate]
  · norm_num [calDate]

/-- Helper for C7: with pairwise-distinct tokens that also avoid the existing
store, every `create_liveness_session` insert succeeds and appends its fresh
row — nothing is refused or overwritten. -/
theorem runCreates_disjoint :
    ∀ (calls : List CreateCall) (store : List LSession),
      (calls.map CreateCall.sid).Nodup →
      (∀ c ∈ calls, ∀ t ∈ store, t.session_id ≠ c.sid) →
      runCreates store calls =
        some (store ++ calls.map (fun c => newSession c.sid c.student c.now)) := by
  intro calls
  induction calls with
  | nil =>
      intro store _ _
      simp [runCreates]
  | cons c rest ih =>
      intro store hnd hdisj
      have hnotin :
          store.any
            (fun t => t.session_id == (newSession c.sid c.student c.now).session_id)
            = false := by
        rw [List.any_eq_false]
        intro t ht
        simp only [newSession, beq_iff_eq]
        exact hdisj c (List.mem_cons_self c rest) t ht
      have hnd1 : (rest.map CreateCall.sid).Nodup :=
        (List.nodup_cons.mp (by simpa using hnd)).2
      have hhead : c.sid ∉ rest.map CreateCall.sid :=
        (List.nodup_cons.mp (by simpa using hnd)).1
      simp only [runCreates, insertSession, hnotin, Bool.false_eq_true,
        if_false]
      rw [ih (store ++ [newSession c.sid c.student c.now]) hnd1]
      · simp
      · intro d hd t ht
        rcases List.mem_append.mp ht with h | h
        · exact hdisj d (List.mem_cons_of_mem c hd) t h
        · have ht1 : t = newSession c.sid c.student c.now := by simpa using h
          subst ht1
          simp only [newSession]
          intro hEq
          exact hhead (hEq ▸ List.mem_map_of_mem CreateCall.sid hd)

/-- C7: with uuid4 modelled as supplying pairwise-distinct tokens (its
collaborator contract), every `create_liveness_session` call inserts a fresh
session whose status is `PENDING` and whose `expires_at` is its creation
time plus 10 minutes; the stored ids are exactly the distinct tokens, every
call's row is stored (nothing refused or overwritten by the `session_id`
unique constraint), and no two stored sessions share an id. -/
theorem C7_theorem :
    ∀ calls : List CreateCall,
      (calls.map CreateCall.sid).Nodup →
      (runCreates [] calls =
          some (calls.map (fun c => newSession c.sid c.student c.now)) ∧
        ((calls.map (fun c => newSession c.sid c.student c.now)).map
            LSession.session_id = calls.map CreateCall.sid) ∧
        ((calls.map (fun c => newSession c.sid c.student c.now)).map
            LSession.session_id).Nodup ∧
        (calls.map (fun c => newSession c.sid c.student c.now)).length
          = calls.length ∧
        (∀ c ∈ calls,
          (newSession c.sid c.student c.now).status = "PENDING" ∧
          (newSession c.sid c.student c.now).expires_at = c.now + 600)) := by
  intro calls hnd
  have hids : (calls.map (fun c => newSession c.sid c.student c.now)).map
      LSession.session_id = calls.map CreateCall.sid := by
    simp [newSession]
  refine ⟨?_, hids, ?_, by simp, ?_⟩
  · simpa using runCreates_disjoint calls [] hnd (by simp)
  · rw [hids]
    exact hnd
  · intro c _
    exact ⟨rfl, rfl⟩

/-- C7, witness: two concrete calls with distinct tokens both insert, with
status `PENDING` and a 10-minute deadline each. -/
theorem C7_witness :
    runCreates [] [⟨"a", none, 0⟩, ⟨"b", some 1, 5⟩] =
        some [newSession "a" none 0, newSession "b" (some 1) 5] ∧
    ([newSession "a" none 0, newSession "b" (some 1) 5].map
        LSession.session_id = ["a", "b"]) ∧
    ([newSession "a" none 0, newSession "b" (some 1) 5].map
        LSession.session_id).Nodup ∧
    ([newSession "a" none 0, newSession "b" (some 1) 5].length = 2) ∧
    (∀ c ∈ [CreateCall.mk "a" none 0, CreateCall.mk "b" (some 1) 5],
      (newSession c.sid c.student c.now).status = "PENDING" ∧
      (newSession c.sid c.student c.now).expires_at = c.now + 600) :=
  C7_theorem [⟨"a", none, 0⟩, ⟨"b", some 1, 5⟩] (by simp)

/-- Finalization never touches the per-step data: the three verified flags,
stored embeddings and frame payloads are unchanged by `finalize`. -/
theorem finalize_preserves :
    ∀ (cmp : List ℚ → List ℚ → ℚ) (now conf : ℚ) (s : LSession),
      (finalize cmp now conf s).center_verified = s.center_verified ∧
      (finalize cmp now conf s).left_verified = s.left_verified ∧
      (finalize cmp now conf s).right_verified = s.right_verified ∧
      (finalize cmp now conf s).center_embedding = s.center_embedding ∧
      (finalize cmp now conf s).left_embedding = s.left_embedding ∧
      (finalize cmp now conf s).right_embedding = s.right_embedding ∧
      (finalize cmp now conf s).center_frame_data = s.center_frame_data ∧
      (finalize cmp now conf s).left_frame_data = s.left_frame_data ∧
      (finalize cmp now conf s).right_frame_data = s.right_frame_data := by
  intro cmp now conf s
  unfold finalize
  rcases hc : s.center_embedding with _ | c <;>
    rcases hl : s.left_embedding with _ | l <;>
      rcases hr : s.right_embedding with _ | r <;>
        simp only [hc, hl, hr] <;> split_ifs <;> simp_all

/-- C3, counterexample: a session created at time 0 has expired by time 1000,
yet `get_liveness_session` — which performs no expiry check — still reports
the stored non-terminal status `PENDING`. -/
theorem C3_counterexample :
    (newSession "sid" none 0).expires_at < 1000 ∧
    (get_liveness_session (newSession "sid" none 0)).status = "PENDING" := by
  exact ⟨by norm_num [newSession], rfl⟩

/-- C3, amended: submitting a frame to a session past its `expires_at`
always yields the `Expired` failure, flips only the stored status to
`EXPIRED` and mutates no step data; `get_liveness_session`, however, applies
no expiry check and returns the stored status as-is (so an expired session
can still be reported `PENDING` or `IN_PROGRESS`). -/
theorem C3_amended :
    ∀ (cmp : List ℚ → List ℚ → ℚ) (now : ℚ) (s : LSession) (inp : FrameInput),
      s.expires_at < now →
      (processFrame cmp now s inp
          = (.expired, { s with status := "EXPIRED" }) ∧
       (get_liveness_session s).status = s.status) := by
  intro cmp now s inp h
  exact ⟨by simp [processFrame, h], rfl⟩

/-- C3, witness: the expired concrete session from time 0 queried at time
1000. -/
theorem C3_witness :
    (processFrame cmp0 1000 (newSession "sid" none 0)
        { position := "center", frame_data := "f", decodes := true
          yaw := some 0, embedding := none }
      = (.expired, { newSession "sid" none 0 with status := "EXPIRED" })) ∧
    (get_liveness_session (newSession "sid" none 0)).status
      = (newSession "sid" none 0).status :=
  C3_amended cmp0 1000 (newSession "sid" none 0)
    { position := "center", frame_data := "f", decodes := true
      yaw := some 0, embedding := none }
    (by norm_num [newSession])

/-- Finalization keeps the center verified flag. -/
theorem finalize_cv (cmp : List ℚ → List ℚ → ℚ) (now conf : ℚ) (s : LSession) :
    (finalize cmp now conf s).center_verified = s.center_verified :=
  (finalize_preserves cmp now conf s).1

/-- Finalization keeps the left verified flag. -/
theorem finalize_lv (cmp : List ℚ → List ℚ → ℚ) (now conf : ℚ) (s : LSession) :
    (finalize cmp now conf s).left_verified = s.left_verified :=
  (finalize_preserves cmp now conf s).2.1

/-- Finalization keeps the right verified flag. -/
theorem finalize_rv (cmp : List ℚ → List ℚ → ℚ) (now conf : ℚ) (s : LSession) :
    (finalize cmp now conf s).right_verified = s.right_verified :=
  (finalize_preserves cmp now conf s).2.2.1

/-- Finalization keeps the stored center embedding. -/
theorem finalize_ce (cmp : List ℚ → List ℚ → ℚ) (now conf : ℚ) (s : LSession) :
    (finalize cmp now conf s).center_embedding = s.center_embedding :=
  (finalize_preserves cmp now conf s).2.2.2.1

/-- Finalization keeps the stored left embedding. -/
theorem finalize_le (cmp : List ℚ → List ℚ → ℚ) (now conf : ℚ) (s : LSession) :
    (finalize cmp now conf s).left_embedding = s.left_embedding :=
  (finalize_preserves cmp now conf s).2.2.2.2.1

/-- Finalization keeps the stored right embedding. -/
theorem finalize_re (cmp : List ℚ → List ℚ → ℚ) (now conf : ℚ) (s : LSession) :
    (finalize cmp now conf s).right_embedding = s.right_embedding :=
  (finalize_preserves cmp now conf s).2.2.2.2.2.1

/-- Finalization keeps the stored center frame payload. -/
theorem finalize_cf (cmp : List ℚ → List ℚ → ℚ) (now conf : ℚ) (s : LSession) :
    (finalize cmp now conf s).center_frame_data = s.center_frame_data :=
  (finalize_preserves cmp now conf s).2.2.2.2.2.2.1

/-- C5, amended: on a non-expired submit with a detected face at yaw `y`, the
verified flag of the requested position is assigned the pose evaluator's
result only when the detected pose equals that position and otherwise keeps
its previous value (a stale `true` survives a mismatched retry); the
extracted embedding, when extraction succeeded, and the frame payload are
stored for the requested position regardless of the verification outcome;
the other positions' flags and embeddings are untouched. -/
theorem C5_amended :
    ∀ (cmp : List ℚ → List ℚ → ℚ) (now : ℚ) (s : LSession) (fd : String)
      (y : ℚ) (emb : Option (List ℚ)),
      ¬ s.expires_at < now →
      (((processFrame cmp now s ⟨"center", fd, true, some y, emb⟩).2.center_verified
          = (if (evaluate_expected_pose y "center").detected = "center"
             then (evaluate_expected_pose y "center").ok
             else s.center_verified) ∧
        (processFrame cmp now s ⟨"center", fd, true, some y, emb⟩).2.center_embedding
          = (match emb with | some e => some e | none => s.center_embedding) ∧
        (processFrame cmp now s ⟨"center", fd, true, some y, emb⟩).2.center_frame_data
          = some fd ∧
        (processFrame cmp now s ⟨"center", fd, true, some y, emb⟩).2.left_verified
          = s.left_verified ∧
        (processFrame cmp now s ⟨"center", fd, true, some y, emb⟩).2.right_verified
          = s.right_verified ∧
        (processFrame cmp now s ⟨"center", fd, true, some y, emb⟩).2.left_embedding
          = s.left_embedding ∧
        (processFrame cmp now s ⟨"center", fd, true, some y, emb⟩).2.right_embedding
          = s.right_embedding) ∧
       ((processFrame cmp now s ⟨"left", fd, true, some y, emb⟩).2.left_verified
          = (if (evaluate_expected_pose y "left").detected = "left"
             then (evaluate_expected_pose y "left").ok
             else s.left_verified) ∧
        (processFrame cmp now s ⟨"left", fd, true, some y, emb⟩).2.left_embedding
          = (match emb with | some e => some e | none => s.left_embedding) ∧
        (processFrame cmp now s ⟨"left", fd, true, some y, emb⟩).2.center_verified
          = s.center_verified ∧
        (processFrame cmp now s ⟨"left", fd, true, some y, emb⟩).2.right_verified
          = s.right_verified ∧
        (processFrame cmp now s ⟨"left", fd, true, some y, emb⟩).2.center_embedding
          = s.center_embedding ∧
        (processFrame cmp now s ⟨"left", fd, true, some y, emb⟩).2.right_embedding
          = s.right_embedding) ∧
       ((processFrame cmp now s ⟨"right", fd, true, some y, emb⟩).2.right_verified
          = (if (evaluate_expected_pose y "right").detected = "right"
             then (evaluate_expected_pose y "right").ok
             else s.right_verified) ∧
        (processFrame cmp now s ⟨"right", fd, true, some y, emb⟩).2.right_embedding
          = (match emb with | some e => some e | none => s.right_embedding) ∧
        (processFrame cmp now s ⟨"right", fd, true, some y, emb⟩).2.center_verified
          = s.center_verified ∧
        (processFrame cmp now s ⟨"right", fd, true, some y, emb⟩).2.left_verified
          = s.left_verified ∧
        (processFrame cmp now s ⟨"right", fd, true, some y, emb⟩).2.center_embedding
          = s.center_embedding ∧
        (processFrame cmp now s ⟨"right", fd, true, some y, emb⟩).2.left_embedding
          = s.left_embedding)) := by
  intro cmp now s fd y emb h
  refine ⟨⟨?_, ?_, ?_, ?_, ?_, ?_, ?_⟩, ⟨?_, ?_, ?_, ?_, ?_, ?_⟩,
    ⟨?_, ?_, ?_, ?_, ?_, ?_⟩⟩ <;>
  · simp [processFrame, h, storeData, setFlag, finalize_cv, finalize_lv,
      finalize_rv, finalize_ce, finalize_le, finalize_re, finalize_cf] <;>
    split_ifs <;> simp_all

/-- A non-expired submit with a decodable frame and a detected face reduces
to store-flag-finalize on the pose evaluation of the detected yaw. -/
theorem processFrame_ok :
    ∀ (cmp : List ℚ → List ℚ → ℚ) (now : ℚ) (s : LSession) (pos fd : String)
      (y : ℚ) (emb : Option (List ℚ)),
      ¬ s.expires_at < now →
      processFrame cmp now s ⟨pos, fd, true, some y, emb⟩ =
        (.ok (evaluate_expected_pose y pos).ok
          (evaluate_expected_pose y pos).confidence
          (some (evaluate_expected_pose y pos).detected),
         finalize cmp now (evaluate_expected_pose y pos).confidence
           (setFlag pos (some (evaluate_expected_pose y pos).detected)
             (evaluate_expected_pose y pos).ok
             (storeData pos fd emb s))) := by
  intro cmp now s pos fd y emb h
  simp [processFrame, h]

/-- The pose evaluation at yaw 0 for a requested center step. -/
theorem eval_center_0 :
    evaluate_expected_pose 0 "center" = ⟨true, 1, "center"⟩ := by
  simp [evaluate_expected_pose, center_thresh, side_thresh, eps6] <;>
    norm_num [abs]

/-- The pose evaluation at yaw `-0.3` for a requested left step. -/
theorem eval_left_m03 :
    evaluate_expected_pose (-(3 / 10)) "left" = ⟨true, 1 / 10, "left"⟩ := by
  simp [evaluate_expected_pose, center_thresh, side_thresh, eps6] <;>
    norm_num [abs]

/-- The pose evaluation at yaw `0.3` for a requested right step. -/
theorem eval_right_03 :
    evaluate_expected_pose (3 / 10) "right" = ⟨true, 1 / 10, "right"⟩ := by
  simp [evaluate_expected_pose, center_thresh, side_thresh, eps6] <;>
    norm_num [abs]

/-- The pose evaluation at yaw `-0.3` for a requested center step: detected
pose `left`, step not ok. -/
theorem eval_center_m03 :
    evaluate_expected_pose (-(3 / 10)) "center" = ⟨false, 0, "left"⟩ := by
  simp [evaluate_expected_pose, center_thresh, side_thresh, eps6] <;>
    norm_num [abs]

/-- The pose evaluation at yaw `0.2` for a requested center step: detected
pose `center` but outside the center threshold, confidence clamped to 0. -/
theorem eval_center_02 :
    evaluate_expected_pose (1 / 5) "center" = ⟨false, 0, "center"⟩ := by
  simp [evaluate_expected_pose, center_thresh, side_thresh, eps6] <;>
    norm_num [abs]

/-- C5, counterexample: after a successful center step, resubmitting the
center position with yaw `-0.3` — detected pose `left`, pose check failed —
leaves the center step verified: the step reads as verified although the
detected pose does not equal the requested position, refuting the claimed
iff. -/
theorem C5_counterexample :
    (runSession cmp0 (newSession "s" none 0)
        [ (1, { position := "center", frame_data := "f1", decodes := true
                yaw := some 0, embedding := none })
        , (2, { position := "center", frame_data := "f2", decodes := true
                yaw := some (-(3 / 10)), embedding := none }) ]).center_verified
      = true ∧
    (evaluate_expected_pose (-(3 / 10)) "center").detected = "left" ∧
    (evaluate_expected_pose (-(3 / 10)) "center").ok = false := by
  have h1 : (processFrame cmp0 1 (newSession "s" none 0)
      { position := "center", frame_data := "f1", decodes := true
        yaw := some 0, embedding := none }).2 =
      { newSession "s" none 0 with
          status := "IN_PROGRESS", center_frame_data := some "f1"
          center_verified := true, liveness_score := 1 } := by
    rw [processFrame_ok cmp0 1 (newSession "s" none 0) "center" "f1" 0 none
      (by norm_num [newSession]), eval_center_0]
    rfl
  have h2 : (processFrame cmp0 2
      { newSession "s" none 0 with
          status := "IN_PROGRESS", center_frame_data := some "f1"
          center_verified := true, liveness_score := 1 }
      { position := "center", frame_data := "f2", decodes := true
        yaw := some (-(3 / 10)), embedding := none }).2 =
      { newSession "s" none 0 with
          status := "IN_PROGRESS", center_frame_data := some "f2"
          center_verified := true, liveness_score := 0 } := by
    rw [processFrame_ok cmp0 2 _ "center" "f2" (-(3 / 10)) none
      (by norm_num [newSession]), eval_center_m03]
    rfl
  refine ⟨?_, ?_, ?_⟩
  · show (processFrame cmp0 2 (processFrame cmp0 1 (newSession "s" none 0)
      { position := "center", frame_data := "f1", decodes := true
        yaw := some 0, embedding := none }).2
      { position := "center", frame_data := "f2", decodes := true
        yaw := some (-(3 / 10)), embedding := none }).2.center_verified = true
    rw [h1, h2]
  · rw [eval_center_m03]
  · rw [eval_center_m03]

/-- C5, witness: the amended statement at a concrete non-expired session,
center submit at yaw 0 with a successfully extracted embedding. -/
theorem C5_witness :
    (((processFrame cmp0 1 (newSession "w" none 0)
          ⟨"center", "f", true, some 0, some [5]⟩).2.center_verified
        = (if (evaluate_expected_pose 0 "center").detected = "center"
           then (evaluate_expected_pose 0 "center").ok
           else (newSession "w" none 0).center_verified) ∧
      (processFrame cmp0 1 (newSession "w" none 0)
          ⟨"center", "f", true, some 0, some [5]⟩).2.center_embedding
        = (match (some [5] : Option (List ℚ)) with
           | some e => some e
           | none => (newSession "w" none 0).center_embedding) ∧
      (processFrame cmp0 1 (newSession "w" none 0)
          ⟨"center", "f", true, some 0, some [5]⟩).2.center_frame_data
        = some "f" ∧
      (processFrame cmp0 1 (newSession "w" none 0)
          ⟨"center", "f", true, some 0, some [5]⟩).2.left_verified
        = (newSession "w" none 0).left_verified ∧
      (processFrame cmp0 1 (newSession "w" none 0)
          ⟨"center", "f", true, some 0, some [5]⟩).2.right_verified
        = (newSession "w" none 0).right_verified ∧
      (processFrame cmp0 1 (newSession "w" none 0)
          ⟨"center", "f", true, some 0, some [5]⟩).2.left_embedding
        = (newSession "w" none 0).left_embedding ∧
      (processFrame cmp0 1 (newSession "w" none 0)
          ⟨"center", "f", true, some 0, some [5]⟩).2.right_embedding
        = (newSession "w" none 0).right_embedding) ∧
     ((processFrame cmp0 1 (newSession "w" none 0)
          ⟨"left", "f", true, some 0, some [5]⟩).2.left_verified
        = (if (evaluate_expected_pose 0 "left").detected = "left"
           then (evaluate_expected_pose 0 "left").ok
           else (newSession "w" none 0).left_verified) ∧
      (processFrame cmp0 1 (newSession "w" none 0)
          ⟨"left", "f", true, some 0, some [5]⟩).2.left_embedding
        = (match (some [5] : Option (List ℚ)) with
           | some e => some e
           | none => (newSession "w" none 0).left_embedding) ∧
      (processFrame cmp0 1 (newSession "w" none 0)
          ⟨"left", "f", true, some 0, some [5]⟩).2.center_verified
        = (newSession "w" none 0).center_verified ∧
      (processFrame cmp0 1 (newSession "w" none 0)
          ⟨"left", "f", true, some 0, some [5]⟩).2.right_verified
        = (newSession "w" none 0).right_verified ∧
      (processFrame cmp0 1 (newSession "w" none 0)
          ⟨"left", "f", true, some 0, some [5]⟩).2.center_embedding
        = (newSession "w" none 0).center_embedding ∧
      (processFrame cmp0 1 (newSession "w" none 0)
          ⟨"left", "f", true, some 0, some [5]⟩).2.right_embedding
        = (newSession "w" none 0).right_embedding) ∧
     ((processFrame cmp0 1 (newSession "w" none 0)
          ⟨"right", "f", true, some 0, some [5]⟩).2.right_verified
        = (if (evaluate_expected_pose 0 "right").detected = "right"
           then (evaluate_expected_pose 0 "right").ok
           else (newSession "w" none 0).right_verified) ∧
      (processFrame cmp0 1 (newSession "w" none 0)
          ⟨"right", "f", true, some 0, some [5]⟩).2.right_embedding
        = (match (some [5] : Option (List ℚ)) with
           | some e => some e
           | none => (newSession "w" none 0).right_embedding) ∧
      (processFrame cmp0 1 (newSession "w" none 0)
          ⟨"right", "f", true, some 0, some [5]⟩).2.center_verified
        = (newSession "w" none 0).center_verified ∧
      (processFrame cmp0 1 (newSession "w" none 0)
          ⟨"right", "f", true, some 0, some [5]⟩).2.left_verified
        = (newSession "w" none 0).left_verified ∧
      (processFrame cmp0 1 (newSession "w" none 0)
          ⟨"right", "f", true, some 0, some [5]⟩).2.center_embedding
        = (newSession "w" none 0).center_embedding ∧
      (processFrame cmp0 1 (newSession "w" none 0)
          ⟨"right", "f", true, some 0, some [5]⟩).2.left_embedding
        = (newSession "w" none 0).left_embedding)) :=
  C5_amended cmp0 1 (newSession "w" none 0) "f" 0 (some [5])
    (by norm_num [newSession])

/-- Computation of the `noEmbTrace` run: three matching poses whose embedding
extraction always failed still complete the session — the fallback sets
`movement_verified = True, score = 0.8` — leaving `final_embedding = None`. -/
theorem noEmbTrace_run :
    runSession cmp0 (newSession "s" none 0) noEmbTrace =
      { newSession "s" none 0 with
          status := "COMPLETED", completed_at := some 3
          center_frame_data := some "f1", left_frame_data := some "f2"
          right_frame_data := some "f3"
          center_verified := true, left_verified := true
          right_verified := true
          liveness_score := 8 / 10, movement_verified := true
          final_embedding := none } := by
  have h1 : (processFrame cmp0 1 (newSession "s" none 0)
      { position := "center", frame_data := "f1", decodes := true
        yaw := some 0, embedding := none }).2 =
      { newSession "s" none 0 with
          status := "IN_PROGRESS", center_frame_data := some "f1"
          center_verified := true, liveness_score := 1 } := by
    rw [processFrame_ok cmp0 1 (newSession "s" none 0) "center" "f1" 0 none
      (by norm_num [newSession]), eval_center_0]
    rfl
  have h2 : (processFrame cmp0 2
      { newSession "s" none 0 with
          status := "IN_PROGRESS", center_frame_data := some "f1"
          center_verified := true, liveness_score := 1 }
      { position := "left", frame_data := "f2", decodes := true
        yaw := some (-(3 / 10)), embedding := none }).2 =
      { newSession "s" none 0 with
          status := "IN_PROGRESS", center_frame_data := some "f1"
          left_frame_data := some "f2", center_verified := true
          left_verified := true, liveness_score := 1 / 10 } := by
    rw [processFrame_ok cmp0 2 _ "left" "f2" (-(3 / 10)) none
      (by norm_num [newSession]), eval_left_m03]
    rfl
  have h3 : (processFrame cmp0 3
      { newSession "s" none 0 with
          status := "IN_PROGRESS", center_frame_data := some "f1"
          left_frame_data := some "f2", center_verified := true
          left_verified := true, liveness_score := 1 / 10 }
      { position := "right", frame_data := "f3", decodes := true
        yaw := some (3 / 10), embedding := none }).2 =
      { newSession "s" none 0 with
          status := "COMPLETED", completed_at := some 3
          center_frame_data := some "f1", left_frame_data := some "f2"
          right_frame_data := some "f3"
          center_verified := true, left_verified := true
          right_verified := true
          liveness_score := 8 / 10, movement_verified := true
          final_embedding := none } := by
    rw [processFrame_ok cmp0 3 _ "right" "f3" (3 / 10) none
      (by norm_num [newSession]), eval_right_03]
    rfl
  show (processFrame cmp0 3 (processFrame cmp0 2 (processFrame cmp0 1
      (newSession "s" none 0)
      { position := "center", frame_data := "f1", decodes := true
        yaw := some 0, embedding := none }).2
      { position := "left", frame_data := "f2", decodes := true
        yaw := some (-(3 / 10)), embedding := none }).2
      { position := "right", frame_data := "f3", decodes := true
        yaw := some (3 / 10), embedding := none }).2 = _
  rw [h1, h2, h3]

/-- Computation of the `goodTrace` run: three matching poses with stored
embeddings `[1]`, `[2]`, `[3]` complete the session under `cmpGood` with
movement score `0.71` and `final_embedding` the center embedding. -/
theorem goodTrace_run :
    runSession cmpGood (newSession "t" none 0) goodTrace =
      { newSession "t" none 0 with
          status := "COMPLETED", completed_at := some 3
          center_frame_data := some "f1", left_frame_data := some "f2"
          right_frame_data := some "f3"
          center_embedding := some [1], left_embedding := some [2]
          right_embedding := some [3]
          center_verified := true, left_verified := true
          right_verified := true
          liveness_score := 71 / 100, movement_verified := true
          final_embedding := some [1] } := by
  have h1 : (processFrame cmpGood 1 (newSession "t" none 0)
      { position := "center", frame_data := "f1", decodes := true
        yaw := some 0, embedding := some [1] }).2 =
      { newSession "t" none 0 with
          status := "IN_PROGRESS", center_frame_data := some "f1"
          center_embedding := some [1]
          center_verified := true, liveness_score := 1 } := by
    rw [processFrame_ok cmpGood 1 (newSession "t" none 0) "center" "f1" 0
      (some [1]) (by norm_num [newSession]), eval_center_0]
    rfl
  have h2 : (processFrame cmpGood 2
      { newSession "t" none 0 with
          status := "IN_PROGRESS", center_frame_data := some "f1"
          center_embedding := some [1]
          center_verified := true, liveness_score := 1 }
      { position := "left", frame_data := "f2", decodes := true
        yaw := some (-(3 / 10)), embedding := some [2] }).2 =
      { newSession "t" none 0 with
          status := "IN_PROGRESS", center_frame_data := some "f1"
          left_frame_data := some "f2"
          center_embedding := some [1], left_embedding := some [2]
          center_verified := true, left_verified := true
          liveness_score := 1 / 10 } := by
    rw [processFrame_ok cmpGood 2 _ "left" "f2" (-(3 / 10)) (some [2])
      (by norm_num [newSession]), eval_left_m03]
    rfl
  have hmv : verify_liveness_movement (cmpGood [1] [2]) (cmpGood [1] [3])
      (cmpGood [2] [3]) =
      { movement_verified := true, confidence := 71 / 100
        person_similarity := 92 / 100, movement_difference := 1 / 2 } := by
    simp [cmpGood, verify_liveness_movement] <;> norm_num
  have h3 : (processFrame cmpGood 3
      { newSession "t" none 0 with
          status := "IN_PROGRESS", center_frame_data := some "f1"
          left_frame_data := some "f2"
          center_embedding := some [1], left_embedding := some [2]
          center_verified := true, left_verified := true
          liveness_score := 1 / 10 }
      { position := "right", frame_data := "f3", decodes := true
        yaw := some (3 / 10), embedding := some [3] }).2 =
      { newSession "t" none 0 with
          status := "COMPLETED", completed_at := some 3
          center_frame_data := some "f1", left_frame_data := some "f2"
          right_frame_data := some "f3"
          center_embedding := some [1], left_embedding := some [2]
          right_embedding := some [3]
          center_verified := true, left_verified := true
          right_verified := true
          liveness_score := 71 / 100, movement_verified := true
          final_embedding := some [1] } := by
    rw [processFrame_ok cmpGood 3 _ "right" "f3" (3 / 10) (some [3])
      (by norm_num [newSession]), eval_right_03]
    rw [show setFlag "right"
        (some (PoseEval.mk true (1 / 10) "right").detected)
        (PoseEval.mk true (1 / 10) "right").ok
        (storeData "right" "f3" (some [3])
          { newSession "t" none 0 with
              status := "IN_PROGRESS", center_frame_data := some "f1"
              left_frame_data := some "f2"
              center_embedding := some [1], left_embedding := some [2]
              center_verified := true, left_verified := true
              liveness_score := 1 / 10 }) =
        { newSession "t" none 0 with
            status := "IN_PROGRESS", center_frame_data := some "f1"
            left_frame_data := some "f2", right_frame_data := some "f3"
            center_embedding := some [1], left_embedding := some [2]
            right_embedding := some [3]
            center_verified := true, left_verified := true
            right_verified := true
            liveness_score := 1 / 10 } from rfl]
    simp [finalize, newSession, hmv]
  show (processFrame cmpGood 3 (processFrame cmpGood 2 (processFrame cmpGood 1
      (newSession "t" none 0)
      { position := "center", frame_data := "f1", decodes := true
        yaw := some 0, embedding := some [1] }).2
      { position := "left", frame_data := "f2", decodes := true
        yaw := some (-(3 / 10)), embedding := some [2] }).2
      { position := "right", frame_data := "f3", decodes := true
        yaw := some (3 / 10), embedding := some [3] }).2 = _
  rw [h1, h2, h3]

/-- An expired submit in full: the `Expired` failure with only the status
flipped. -/
theorem processFrame_exp :
    ∀ (cmp : List ℚ → List ℚ → ℚ) (now : ℚ) (s : LSession) (inp : FrameInput),
      s.expires_at < now →
      processFrame cmp now s inp = (.expired, { s with status := "EXPIRED" }) := by
  intro cmp now s inp h
  simp [processFrame, h]

/-- A finalized session reads `COMPLETED` only out of the all-flags branch,
and finalization keeps the flags, so a `COMPLETED` result has all three
steps verified. -/
theorem finalize_completed :
    ∀ (cmp : List ℚ → List ℚ → ℚ) (now conf : ℚ) (s : LSession),
      (finalize cmp now conf s).status = "COMPLETED" →
      ((finalize cmp now conf s).center_verified = true ∧
       (finalize cmp now conf s).left_verified = true ∧
       (finalize cmp now conf s).right_verified = true) := by
  intro cmp now conf s h
  rw [finalize_cv, finalize_lv, finalize_rv]
  by_cases hall : (s.center_verified ∧ s.left_verified ∧ s.right_verified : Prop)
  · exact ⟨hall.1, hall.2.1, hall.2.2⟩
  · exfalso
    unfold finalize at h
    rw [if_neg hall] at h
    simp at h

/-- One `process_liveness_frames` call preserves the invariant that a
`COMPLETED` session has all three steps verified. -/
theorem step_preserves_inv :
    ∀ (cmp : List ℚ → List ℚ → ℚ) (now : ℚ) (s : LSession) (inp : FrameInput),
      (s.status = "COMPLETED" →
        (s.center_verified = true ∧ s.left_verified = true ∧
         s.right_verified = true)) →
      ((processFrame cmp now s inp).2.status = "COMPLETED" →
        ((processFrame cmp now s inp).2.center_verified = true ∧
         (processFrame cmp now s inp).2.left_verified = true ∧
         (processFrame cmp now s inp).2.right_verified = true)) := by
  intro cmp now s inp hs
  unfold processFrame
  split_ifs with h1 h2
  · intro h
    simp at h
  · exact hs
  · intro h
    exact finalize_completed cmp now _ _ h

/-- C1, counterexample: (a) three matching-pose submissions whose embedding
extraction failed drive the session to `COMPLETED` through the
basic-verification fallback with `final_embedding = None`; (b) a session
completed with embeddings, on a further submit after its deadline, flips to
`EXPIRED` while keeping its non-null `final_embedding`. -/
theorem C1_counterexample :
    (runSession cmp0 (newSession "s" none 0) noEmbTrace).status
      = "COMPLETED" ∧
    (runSession cmp0 (newSession "s" none 0) noEmbTrace).final_embedding
      = none ∧
    (runSession cmpGood (newSession "t" none 0)
        (goodTrace ++ [(1000,
          { position := "center", frame_data := "f4", decodes := true
            yaw := some 0, embedding := none })])).status = "EXPIRED" ∧
    (runSession cmpGood (newSession "t" none 0)
        (goodTrace ++ [(1000,
          { position := "center", frame_data := "f4", decodes := true
            yaw := some 0, embedding := none })])).final_embedding
      = some [1] := by
  have happ : runSession cmpGood (newSession "t" none 0)
      (goodTrace ++ [(1000,
        { position := "center", frame_data := "f4", decodes := true
          yaw := some 0, embedding := none })]) =
      (processFrame cmpGood 1000
        (runSession cmpGood (newSession "t" none 0) goodTrace)
        { position := "center", frame_data := "f4", decodes := true
          yaw := some 0, embedding := none }).2 := rfl
  refine ⟨?_, ?_, ?_, ?_⟩
  · rw [noEmbTrace_run]
  · rw [noEmbTrace_run]
  · rw [happ, goodTrace_run,
      processFrame_exp cmpGood 1000 _ _ (by norm_num [newSession])]
  · rw [happ, goodTrace_run,
      processFrame_exp cmpGood 1000 _ _ (by norm_num [newSession])]

/-- C1, amended: over every sequence of `create_liveness_session` /
`process_liveness_frames` operations, a session whose state is `COMPLETED`
has all three steps verified.  (The claim's `final_embedding` clauses do not
hold on the code: a completed session's `final_embedding` may be null, and a
`FAILED` or `EXPIRED` session may retain a non-null one.) -/
theorem C1_amended :
    ∀ (cmp : List ℚ → List ℚ → ℚ) (sid : String) (student : Option Nat)
      (t0 : ℚ) (steps : List (ℚ × FrameInput)),
      (runSession cmp (newSession sid student t0) steps).status = "COMPLETED" →
      ((runSession cmp (newSession sid student t0) steps).center_verified
          = true ∧
       (runSession cmp (newSession sid student t0) steps).left_verified
          = true ∧
       (runSession cmp (newSession sid student t0) steps).right_verified
          = true) := by
  intro cmp sid student t0 steps
  have key : ∀ (l : List (ℚ × FrameInput)) (s : LSession),
      (s.status = "COMPLETED" →
        (s.center_verified = true ∧ s.left_verified = true ∧
         s.right_verified = true)) →
      ((runSession cmp s l).status = "COMPLETED" →
        ((runSession cmp s l).center_verified = true ∧
         (runSession cmp s l).left_verified = true ∧
         (runSession cmp s l).right_verified = true)) := by
    intro l
    induction l with
    | nil => intro s hs; exact hs
    | cons p rest ih =>
        intro s hs
        have hstep : runSession cmp s (p :: rest)
            = runSession cmp (processFrame cmp p.1 s p.2).2 rest := rfl
        rw [hstep]
        exact ih _ (step_preserves_inv cmp p.1 s p.2 hs)
  exact key steps (newSession sid student t0) (by intro h; simp [newSession] at h)

/-- C1, witness: the completed `goodTrace` run has all three steps
verified. -/
theorem C1_witness :
    (runSession cmpGood (newSession "t" none 0) goodTrace).center_verified
        = true ∧
    (runSession cmpGood (newSession "t" none 0) goodTrace).left_verified
        = true ∧
    (runSession cmpGood (newSession "t" none 0) goodTrace).right_verified
        = true :=
  C1_amended cmpGood "t" none 0 goodTrace (by rw [goodTrace_run])

/-- C4: `process_liveness_frames` performs no terminal-state check — after
the `goodTrace` run completes the session, a fourth center submit at yaw 0.2
is processed normally (`ok` response, not an `InvalidState` error), clears
the center flag and moves the session back to `IN_PROGRESS`: terminal states
are not sticky. -/
theorem C4_bug :
    (runSession cmpGood (newSession "t" none 0) goodTrace).status
      = "COMPLETED" ∧
    (processFrame cmpGood 4
        (runSession cmpGood (newSession "t" none 0) goodTrace)
        { position := "center", frame_data := "f4", decodes := true
          yaw := some (1 / 5), embedding := none }).1
      = .ok false 0 (some "center") ∧
    (processFrame cmpGood 4
        (runSession cmpGood (newSession "t" none 0) goodTrace)
        { position := "center", frame_data := "f4", decodes := true
          yaw := some (1 / 5), embedding := none }).2.status
      = "IN_PROGRESS" ∧
    (processFrame cmpGood 4
        (runSession cmpGood (newSession "t" none 0) goodTrace)
        { position := "center", frame_data := "f4", decodes := true
          yaw := some (1 / 5), embedding := none }).2.center_verified
      = false := by
  have hstep := processFrame_ok cmpGood 4
    (runSession cmpGood (newSession "t" none 0) goodTrace)
    "center" "f4" (1 / 5) none
    (by rw [goodTrace_run]; norm_num [newSession])
  refine ⟨by rw [goodTrace_run], ?_, ?_, ?_⟩ <;>
    rw [hstep, eval_center_02, goodTrace_run] <;> rfl

end FaceAttend
